import Mathlib

/-!
Shallow embedding of `pioinstaller/penv.py`, the cascading-fallback virtual
environment builder of the PlatformIO core installer.

External effects (subprocess execution, file downloads, filesystem writes,
interpreter discovery, the host clock and platform) are modelled by a `World`
of oracles, and every embedded function returns its result together with a
trace of the observable events it performed, in order.  Exceptions that the
Python code raises and catches are modelled by `Option`/`Except` results:
a raised-and-caught exception is a `none`/`error` value at the boundary where
the `except` block sits.  The collaborator modules (`util`, `python`, `core`)
are outside this file's source; their contracts (a downloader that returns a
path or a none-signal and never raises, a discovery routine returning an
ordered candidate list, a portable-interpreter fetch returning a path or
none) are represented directly as `World` oracles.
-/

namespace PioPenv

/-- `os.path.join` for the relative segments this module joins (POSIX form). -/
def path_join (a b : String) : String := a ++ "/" ++ b

/-- Split a character list at every slash (the components of a POSIX
path, like `"a/b".split("/")`). -/
def split_slashes : List Char → List (List Char)
  | [] => [[]]
  | c :: cs =>
    let r := split_slashes cs
    if c = '/' then [] :: r
    else
      match r with
      | [] => [[c]]
      | g :: gs => (c :: g) :: gs

/-- The slash-separated components of a path. -/
def path_components (s : String) : List String :=
  (split_slashes s.data).map fun cs => ⟨cs⟩

/-- Rejoin path components with slashes. -/
def join_slashes : List String → String
  | [] => ""
  | [a] => a
  | a :: rest => a ++ "/" ++ join_slashes rest

/-- `os.path.dirname`: everything before the final separator (empty when
the path has no separator). -/
def path_dirname (s : String) : String :=
  join_slashes (path_components s).dropLast

/-- `os.path.basename`: the final path component. -/
def path_basename (s : String) : String :=
  (path_components s).getLastD ""

/-- Module constant `VIRTUALENV_URL` from `penv.py`. -/
def VIRTUALENV_URL : String := "https://bootstrap.pypa.io/virtualenv/virtualenv.pyz"

/-- Module constant `PIP_URL` from `penv.py`. -/
def PIP_URL : String := "https://bootstrap.pypa.io/get-pip.py"

/-- Outcome of `subprocess.run(command, check=True)`: the process exits
cleanly (`ok`), exits with a nonzero status so that `check=True` raises
`CalledProcessError` (`exitError`), or the call fails for another reason,
e.g. the executable is absent, raising `OSError` (`otherError`). -/
inductive RunRes
  | ok
  | exitError
  | otherError
deriving DecidableEq, Repr

/-- One observable external action performed by the embedded code, recorded
in program order. -/
inductive Event
  | removeDir (path : String)
  | runCmd (cmd : List String) (res : RunRes)
  | downloadFile (url : String) (dst : String) (res : Option String)
  | writeFile (path : String) (ok : Bool)
  | checkOutput (cmd : List String) (res : Option String)
  | fetchPortable (base : String) (res : Option String)
  | stateSaved (path : String)
deriving DecidableEq, Repr

/-- The oracle environment: fixed answers of the outside world to every
external call the module can make.  `runRes` answers `subprocess.run`,
`downloadFile` answers `util.download_file` (a path on success, `none` on
failure, never raising), `checkOutput` answers `subprocess.check_output`
(already decoded and stripped; `none` models a raised exception),
`writeOk` says whether opening a path for writing succeeds, `pythons` is
the ordered result of `python.find_compatible_pythons`, `isPortable` is
`python.is_portable()`, `portablePython` answers
`python.fetch_portable_python(base)`, and the remaining fields model
`util.IS_WINDOWS`, `int(round(time.time()))`, `__version__`,
`platform.platform()`, `platform.release()`, the `PLATFORMIO_PENV_DIR`
environment variable and `core.get_core_dir()`. -/
structure World where
  runRes : List String → RunRes
  downloadFile : String → String → Option String
  checkOutput : List String → Option String
  writeOk : String → Bool
  pythons : List String
  isPortable : Bool
  portablePython : String → Option String
  isWindows : Bool
  timeNow : Int
  installerVersion : String
  platformDesc : String
  platformRelease : String
  envPenvDir : Option String
  coreDir : String

/-- JSON values as far as this module produces and consumes them. -/
inductive JVal
  | num (n : Int)
  | str (s : String)
  | obj (fields : List (String × JVal))

/-- The filesystem as seen by the state recorder: each path optionally holds
a stored JSON document.  Serialization by the external `json` library is
modelled as storing the JSON value itself (`json.load` after `json.dump`
yields an equal value for the records this module writes). -/
def Fs : Type := String → Option JVal

/-- The distinct failure values `penv.py` raises, one constructor per raise
site (each site uses its own message text on the shared installer exception
class): the build-failure raise in `create_core_penv`, the missing
`state.json` raise in `load_state`, the missing-download raise in
`create_with_remote_venv`, and a propagated `subprocess.check_output`
failure escaping `init_state`. -/
inductive PIOErr
  | buildFailure
  | stateNotFound (path : String)
  | virtualenvScriptMissing
  | checkOutputFailed (cmd : List String)
deriving DecidableEq, Repr

/-- `get_penv_dir`: the `PLATFORMIO_PENV_DIR` override wins; otherwise
`penv` under the given path or the core directory. -/
def get_penv_dir (w : World) (path : Option String) : String :=
  match w.envPenvDir with
  | some d => d
  | none => path_join (path.getD w.coreDir) "penv"

/-- `get_penv_bin_dir`: `Scripts` on Windows, `bin` elsewhere. -/
def get_penv_bin_dir (w : World) (penv_dir : String) : String :=
  path_join penv_dir (if w.isWindows then "Scripts" else "bin")

/-- The fixed ordered command list `venv_cmd_options` of
`create_with_local_venv`. -/
def venv_cmd_options (python_exe penv_dir : String) : List (List String) :=
  [[python_exe, "-m", "venv", penv_dir],
   [python_exe, "-m", "virtualenv", "-p", python_exe, penv_dir],
   ["virtualenv", "-p", python_exe, penv_dir],
   [python_exe, "-m", "virtualenv", penv_dir],
   ["virtualenv", penv_dir]]

/-- The `for command in venv_cmd_options` loop of `create_with_local_venv`:
before each attempt `util.safe_remove_dir(penv_dir)`, then
`subprocess.run(command, check=True)`; the first clean exit returns
`penv_dir`, and exhaustion re-raises the last error (modelled as `none`,
the value its caller's `except` turns it into). -/
def local_venv_attempts (w : World) (penv_dir : String) :
    List (List String) → Option String × List Event
  | [] => (none, [])
  | command :: rest =>
    let res := w.runRes command
    if res = RunRes.ok then
      (some penv_dir, [Event.removeDir penv_dir, Event.runCmd command res])
    else
      let r := local_venv_attempts w penv_dir rest
      (r.1, Event.removeDir penv_dir :: Event.runCmd command res :: r.2)

/-- `create_with_local_venv`: run the fixed strategy list. -/
def create_with_local_venv (w : World) (python_exe penv_dir : String) :
    Option String × List Event :=
  local_venv_attempts w penv_dir (venv_cmd_options python_exe penv_dir)

/-- Destination `os.path.join(os.path.dirname(penv_dir), ".cache", "tmp",
os.path.basename(VIRTUALENV_URL))` used by `create_with_remote_venv`. -/
def virtualenv_script_dst (penv_dir : String) : String :=
  path_join (path_join (path_join (path_dirname penv_dir) ".cache") "tmp")
    (path_basename VIRTUALENV_URL)

/-- `create_with_remote_venv`: clear the target, download the virtualenv
bootstrap script to the cache location (raising, modelled as `none`, if the
downloader signals failure), then run it with the candidate interpreter
against the target path. -/
def create_with_remote_venv (w : World) (python_exe penv_dir : String) :
    Option String × List Event :=
  let dst := virtualenv_script_dst penv_dir
  match w.downloadFile VIRTUALENV_URL dst with
  | none =>
    (none, [Event.removeDir penv_dir, Event.downloadFile VIRTUALENV_URL dst none])
  | some venv_script_path =>
    let command := [python_exe, venv_script_path, penv_dir]
    let res := w.runRes command
    ((if res = RunRes.ok then some penv_dir else none),
     [Event.removeDir penv_dir,
      Event.downloadFile VIRTUALENV_URL dst (some venv_script_path),
      Event.runCmd command res])

/-- `create_virtualenv`: try the local strategies, catch any failure, then
try the remote strategy, catch any failure; `none` when both paths fail. -/
def create_virtualenv (w : World) (python_exe penv_dir : String) :
    Option String × List Event :=
  match create_with_local_venv w python_exe penv_dir with
  | (some d, tr) => (some d, tr)
  | (none, tr) =>
    let r := create_with_remote_venv w python_exe penv_dir
    (r.1, tr ++ r.2)

/-- The `for python_exe in python.find_compatible_pythons(...)` loop of
`create_core_penv`: first candidate for which `create_virtualenv` returns a
directory wins. -/
def create_virtualenv_over (w : World) (penv_dir : String) :
    List String → Option String × List Event
  | [] => (none, [])
  | python_exe :: rest =>
    match create_virtualenv w python_exe penv_dir with
    | (some d, tr) => (some d, tr)
    | (none, tr) =>
      let r := create_virtualenv_over w penv_dir rest
      (r.1, tr ++ r.2)

/-- The one-line Python program `init_state` feeds to the interpreter to
report its version. -/
def version_code : String :=
  "import sys; version=sys.version_info; " ++
  "print(\x27%d.%d.%d\x27%(version[0],version[1],version[2]))"

/-- The fixed relative state-file path `os.path.join(penv_dir, "state.json")`. -/
def state_path (penv_dir : String) : String := path_join penv_dir "state.json"

/-- `save_state`: serialize the record to `state.json` under the target
path, overwriting unconditionally; returns the updated filesystem and the
state-file path. -/
def save_state (fs : Fs) (state : JVal) (penv_dir : String) : Fs × String :=
  let sp := state_path penv_dir
  ((fun q => if q = sp then some state else fs q), sp)

/-- `load_state`: raise the missing-state-file error when `state.json` is
absent, otherwise deserialize and return it. -/
def load_state (fs : Fs) (penv_dir : String) : Except PIOErr JVal :=
  let sp := state_path penv_dir
  match fs sp with
  | none => Except.error (PIOErr.stateNotFound sp)
  | some v => Except.ok v

/-- The state record `init_state` assembles once the interpreter has
reported `python_version`. -/
def init_state_record (w : World) (python_exe python_version : String) : JVal :=
  JVal.obj
    [("created_on", JVal.num w.timeNow),
     ("python", JVal.obj
       [("path", JVal.str python_exe),
        ("version", JVal.str python_version)]),
     ("installer_version", JVal.str w.installerVersion),
     ("platform", JVal.obj
       [("platform", JVal.str w.platformDesc),
        ("release", JVal.str w.platformRelease)])]

/-- `init_state`: run the freshly built interpreter with the
version-reporting one-liner via `subprocess.check_output` (a failure there
propagates to the caller), assemble the record with the current timestamp,
installer version and host platform descriptor, and persist it with
`save_state`. -/
def init_state (w : World) (fs : Fs) (python_exe penv_dir : String) :
    Except PIOErr (Fs × String) × List Event :=
  let cmd := [python_exe, "-c", version_code]
  match w.checkOutput cmd with
  | none =>
    (Except.error (PIOErr.checkOutputFailed cmd), [Event.checkOutput cmd none])
  | some python_version =>
    let state := init_state_record w python_exe python_version
    let r := save_state fs state penv_dir
    (Except.ok r,
     [Event.checkOutput cmd (some python_version), Event.stateSaved r.2])

/-- The `pip.conf` path `update_pip` writes. -/
def pip_conf_path (penv_dir : String) : String := path_join penv_dir "pip.conf"

/-- The primary upgrade command of `update_pip`. -/
def pip_upgrade_cmd (python_exe : String) : List String :=
  [python_exe, "-m", "pip", "install", "-U", "pip"]

/-- Destination for the downloaded `get-pip.py` installer. -/
def get_pip_path (penv_dir : String) : String :=
  path_join (path_join (path_join (path_dirname penv_dir) ".cache") "tmp")
    (path_basename PIP_URL)

/-- `update_pip`: write `pip.conf`, attempt the primary upgrade command;
only a `CalledProcessError` (`exitError`) from it triggers the fallback of
downloading `get-pip.py` (the download result is not checked) and running
it; every other failure anywhere reaches the outer `except` and yields
`False`.  Returns `True` exactly when the step that last ran exited
cleanly. -/
def update_pip (w : World) (python_exe penv_dir : String) : Bool × List Event :=
  let conf := pip_conf_path penv_dir
  if w.writeOk conf = false then
    (false, [Event.writeFile conf false])
  else
    let cmd1 := pip_upgrade_cmd python_exe
    match w.runRes cmd1 with
    | RunRes.ok =>
      (true, [Event.writeFile conf true, Event.runCmd cmd1 RunRes.ok])
    | RunRes.otherError =>
      (false, [Event.writeFile conf true, Event.runCmd cmd1 RunRes.otherError])
    | RunRes.exitError =>
      let gp := get_pip_path penv_dir
      let dl := w.downloadFile PIP_URL gp
      let cmd2 := [python_exe, gp]
      let res2 := w.runRes cmd2
      ((if res2 = RunRes.ok then true else false),
       [Event.writeFile conf true, Event.runCmd cmd1 RunRes.exitError,
        Event.downloadFile PIP_URL gp dl, Event.runCmd cmd2 res2])

/-- `create_core_penv`: resolve the target path, run every discovered
candidate through `create_virtualenv`, fall back to fetching a portable
interpreter (only when the running interpreter is not itself portable) and
trying it once, raise the build-failure error when nothing produced a
directory, and otherwise record state, update pip and return the built
directory. -/
def create_core_penv (w : World) (fs : Fs) (penv_dir_arg : Option String) :
    Except PIOErr String × Fs × List Event :=
  let penv_dir :=
    match penv_dir_arg with
    | some d => d
    | none => get_penv_dir w none
  let r1 := create_virtualenv_over w penv_dir w.pythons
  let r2 : Option String × List Event :=
    match r1.1 with
    | some d => (some d, [])
    | none =>
      if w.isPortable then (none, [])
      else
        let base := path_dirname penv_dir
        match w.portablePython base with
        | none => (none, [Event.fetchPortable base none])
        | some python_exe =>
          let r := create_virtualenv w python_exe penv_dir
          (r.1, Event.fetchPortable base (some python_exe) :: r.2)
  match r2.1 with
  | none => (Except.error PIOErr.buildFailure, fs, r1.2 ++ r2.2)
  | some d =>
    let python_exe :=
      path_join (get_penv_bin_dir w penv_dir)
        (if w.isWindows then "python.exe" else "python")
    match init_state w fs python_exe penv_dir with
    | (Except.error e, tr3) => (Except.error e, fs, r1.2 ++ r2.2 ++ tr3)
    | (Except.ok (fs2, _), tr3) =>
      let r4 := update_pip w python_exe penv_dir
      (Except.ok d, fs2, r1.2 ++ r2.2 ++ tr3 ++ r4.2)

/-! ### Trace observations -/

/-- The commands executed by `subprocess.run`, in order of execution. -/
def runCmds (tr : List Event) : List (List String) :=
  tr.filterMap fun e =>
    match e with
    | Event.runCmd c _ => some c
    | _ => none

/-- Whether an event is a `subprocess.run` invocation. -/
def is_run_event : Event → Bool
  | Event.runCmd _ _ => true
  | _ => false

/-- How many download attempts of `url` the trace holds. -/
def downloadCount (url : String) (tr : List Event) : Nat :=
  (tr.filter fun e =>
    match e with
    | Event.downloadFile u _ _ => u == url
    | _ => false).length

/-! ### Claim C1 -/

lemma local_attempts_first_success (w : World) (d : String)
    (cs : List (List String)) (k : Nat) (hk : k < cs.length)
    (hok : w.runRes (cs.get ⟨k, hk⟩) = RunRes.ok)
    (hfail : ∀ c ∈ cs.take k, w.runRes c ≠ RunRes.ok) :
    (local_venv_attempts w d cs).1 = some d ∧
      runCmds (local_venv_attempts w d cs).2 = cs.take (k + 1) := by
  induction cs generalizing k with
  | nil => simp at hk
  | cons c rest ih =>
    cases k with
    | zero =>
      have hc : w.runRes c = RunRes.ok := hok
      simp [local_venv_attempts, hc, runCmds]
    | succ n =>
      have hc : w.runRes c ≠ RunRes.ok := hfail c (by simp)
      have hok2 : w.runRes (rest.get ⟨n, Nat.lt_of_succ_lt_succ hk⟩) = RunRes.ok := hok
      have hfail2 : ∀ x ∈ rest.take n, w.runRes x ≠ RunRes.ok := by
        intro x hx
        exact hfail x (by rw [List.take_succ_cons]; exact List.mem_cons_of_mem c hx)
      obtain ⟨h1, h2⟩ := ih n (Nat.lt_of_succ_lt_succ hk) hok2 hfail2
      simp [local_venv_attempts, hc, runCmds] at h1 h2 ⊢
      exact ⟨h1, h2⟩

/-- C1: when strategy `k` of the fixed local strategy list is the first
whose command exits without error, the earlier strategies are each invoked
exactly once, in the fixed priority order, before it, later strategies are
never invoked, and the target path is returned as the built environment:
the executed commands are exactly the first `k + 1` entries of
`venv_cmd_options`, in order. -/
theorem penv_C1_local_strategy_order (w : World) (p d : String) (k : Nat)
    (hk : k < (venv_cmd_options p d).length)
    (hok : w.runRes ((venv_cmd_options p d).get ⟨k, hk⟩) = RunRes.ok)
    (hfail : ∀ c ∈ (venv_cmd_options p d).take k, w.runRes c ≠ RunRes.ok) :
    (create_with_local_venv w p d).1 = some d ∧
      runCmds (create_with_local_venv w p d).2 = (venv_cmd_options p d).take (k + 1) :=
  local_attempts_first_success w d (venv_cmd_options p d) k hk hok hfail

/-- A concrete world: only the second local strategy command for candidate
`py` and target `pdir` exits cleanly, every other process invocation fails
with a nonzero exit, every download and portable fetch fails, and every
file write fails. -/
def w1 : World :=
  ⟨fun c => if c = ["py", "-m", "virtualenv", "-p", "py", "pdir"] then RunRes.ok
            else RunRes.exitError,
   fun _ _ => none, fun _ => none, fun _ => false, ["py"], false, fun _ => none,
   false, 0, "1.2.2", "Linux", "5.15", none, "core"⟩

/-- Witness for C1: in `w1` the first strategy fails, the second succeeds,
and exactly the first two commands run, in order. -/
theorem penv_C1_witness :
    (create_with_local_venv w1 "py" "pdir").1 = some "pdir" ∧
      runCmds (create_with_local_venv w1 "py" "pdir").2 =
        (venv_cmd_options "py" "pdir").take 2 :=
  penv_C1_local_strategy_order w1 "py" "pdir" 1 (by decide) (by decide) (by decide)

/-! ### Claim C2 -/

lemma downloadCount_append (url : String) (t1 t2 : List Event) :
    downloadCount url (t1 ++ t2) = downloadCount url t1 + downloadCount url t2 := by
  simp [downloadCount, List.filter_append]

lemma local_attempts_all_fail (w : World) (d : String) (cs : List (List String))
    (h : ∀ c ∈ cs, w.runRes c ≠ RunRes.ok) :
    (local_venv_attempts w d cs).1 = none := by
  induction cs with
  | nil => simp [local_venv_attempts]
  | cons c rest ih =>
    have hc : w.runRes c ≠ RunRes.ok := h c (by simp)
    simp [local_venv_attempts, hc]
    exact ih fun x hx => h x (List.mem_cons_of_mem c hx)

lemma local_attempts_no_download (w : World) (d : String) (url : String)
    (cs : List (List String)) :
    downloadCount url (local_venv_attempts w d cs).2 = 0 := by
  induction cs with
  | nil => simp [local_venv_attempts, downloadCount]
  | cons c rest ih =>
    by_cases hc : w.runRes c = RunRes.ok
    · simp [local_venv_attempts, hc, downloadCount]
    · simp [local_venv_attempts, hc, downloadCount] at ih ⊢
      exact ih

lemma remote_venv_download_once (w : World) (p d : String) :
    downloadCount VIRTUALENV_URL (create_with_remote_venv w p d).2 = 1 := by
  unfold create_with_remote_venv
  cases h : w.downloadFile VIRTUALENV_URL (virtualenv_script_dst d) <;>
    simp [downloadCount, h]

lemma create_with_local_no_download (w : World) (p d url : String) :
    downloadCount url (create_with_local_venv w p d).2 = 0 :=
  local_attempts_no_download w d url _

lemma create_virtualenv_over_cons_fail (w : World) (d p : String)
    (rest : List String) (h : (create_virtualenv w p d).1 = none) :
    create_virtualenv_over w d (p :: rest) =
      ((create_virtualenv_over w d rest).1,
        (create_virtualenv w p d).2 ++ (create_virtualenv_over w d rest).2) := by
  rcases hE : create_virtualenv w p d with ⟨r1, tr1⟩
  rw [hE] at h
  simp only at h
  subst h
  conv_lhs => simp only [create_virtualenv_over]
  rw [hE]

lemma create_virtualenv_all_local_fail (w : World) (p d : String)
    (hlocal : ∀ c ∈ venv_cmd_options p d, w.runRes c ≠ RunRes.ok) :
    create_virtualenv w p d =
      ((create_with_remote_venv w p d).1,
        (create_with_local_venv w p d).2 ++ (create_with_remote_venv w p d).2) := by
  have hl : (create_with_local_venv w p d).1 = none :=
    local_attempts_all_fail w d _ hlocal
  unfold create_virtualenv
  rcases hE : create_with_local_venv w p d with ⟨r1, tr1⟩
  rw [hE] at hl
  simp only at hl
  subst hl
  simp [hE]

/-- C2: when every local strategy command fails for a candidate, the remote
strategy is attempted exactly once for that candidate (its download of the
virtualenv bootstrap script appears exactly once in the trace, after the
local attempts); when it also fails, the candidate yields no environment
and the candidate loop continues into the remaining candidates without
raising, their outcome deciding the result. -/
theorem penv_C2_remote_once_then_next (w : World) (p d : String)
    (rest : List String)
    (hlocal : ∀ c ∈ venv_cmd_options p d, w.runRes c ≠ RunRes.ok)
    (hremote : (create_with_remote_venv w p d).1 = none) :
    (create_virtualenv w p d).2 =
        (create_with_local_venv w p d).2 ++ (create_with_remote_venv w p d).2 ∧
      downloadCount VIRTUALENV_URL (create_virtualenv w p d).2 = 1 ∧
      (create_virtualenv w p d).1 = none ∧
      create_virtualenv_over w d (p :: rest) =
        ((create_virtualenv_over w d rest).1,
          (create_virtualenv w p d).2 ++ (create_virtualenv_over w d rest).2) := by
  have hcv := create_virtualenv_all_local_fail w p d hlocal
  refine ⟨by rw [hcv], ?_, ?_, ?_⟩
  · rw [hcv]
    simp only [downloadCount_append, create_with_local_no_download,
      remote_venv_download_once]
  · rw [hcv, hremote]
  · have h1 : (create_virtualenv w p d).1 = none := by rw [hcv, hremote]
    exact create_virtualenv_over_cons_fail w d p rest h1

/-- A concrete world in which every process invocation exits with an error
and every download fails. -/
def w2 : World :=
  ⟨fun _ => RunRes.exitError, fun _ _ => none, fun _ => none, fun _ => false,
   ["py"], false, fun _ => none, false, 0, "1.2.2", "Linux", "5.15", none, "core"⟩

/-- Witness for C2: in `w2`, with candidate `py`, target `base/pdir` and no
further candidates, all five local strategies fail, the remote download is
attempted exactly once, and the loop moves on yielding no environment. -/
theorem penv_C2_witness :
    (create_virtualenv w2 "py" "base/pdir").2 =
        (create_with_local_venv w2 "py" "base/pdir").2 ++
          (create_with_remote_venv w2 "py" "base/pdir").2 ∧
      downloadCount VIRTUALENV_URL (create_virtualenv w2 "py" "base/pdir").2 = 1 ∧
      (create_virtualenv w2 "py" "base/pdir").1 = none ∧
      create_virtualenv_over w2 "base/pdir" ["py"] =
        ((create_virtualenv_over w2 "base/pdir" []).1,
          (create_virtualenv w2 "py" "base/pdir").2 ++
            (create_virtualenv_over w2 "base/pdir" []).2) :=
  penv_C2_remote_once_then_next w2 "py" "base/pdir" [] (by decide) (by decide)

/-! ### Claims C3 and C9 -/

lemma create_virtualenv_over_all_fail (w : World) (d : String)
    (ps : List String) (h : ∀ p ∈ ps, (create_virtualenv w p d).1 = none) :
    (create_virtualenv_over w d ps).1 = none := by
  induction ps with
  | nil => simp [create_virtualenv_over]
  | cons p rest ih =>
    have hp := h p (by simp)
    rw [create_virtualenv_over_cons_fail w d p rest hp]
    exact ih fun x hx => h x (List.mem_cons_of_mem p hx)

/-- C3: when every discovered candidate interpreter is exhausted (local and
remote strategies all failed) and the portable-interpreter fetch yields no
interpreter, `create_core_penv` fails with the build-failure error (the
raise carrying the file-a-report guidance) and returns no environment
path. -/
theorem penv_C3_build_failure (w : World) (fs : Fs) (d : String)
    (hall : ∀ p ∈ w.pythons, (create_virtualenv w p d).1 = none)
    (hport : w.portablePython (path_dirname d) = none) :
    (create_core_penv w fs (some d)).1 = Except.error PIOErr.buildFailure := by
  have h1 : (create_virtualenv_over w d w.pythons).1 = none :=
    create_virtualenv_over_all_fail w d w.pythons hall
  by_cases hp : w.isPortable
  · simp [create_core_penv, h1, hp]
  · simp [create_core_penv, h1, hp, hport]

/-- Witness for C3: in `w2` the single candidate `py` is exhausted, the
portable fetch yields nothing, and the build fails fatally. -/
theorem penv_C3_witness :
    (create_core_penv w2 (fun _ => none) (some "base/pdir")).1 =
      Except.error PIOErr.buildFailure :=
  penv_C3_build_failure w2 (fun _ => none) "base/pdir" (by decide) (by decide)

/-- Whether an event is a `python.fetch_portable_python` invocation. -/
def is_fetch_event : Event → Bool
  | Event.fetchPortable _ _ => true
  | _ => false

/-- How many portable-interpreter fetches the trace holds. -/
def fetchCount (tr : List Event) : Nat :=
  (tr.filter is_fetch_event).length

lemma fetchCount_append (t1 t2 : List Event) :
    fetchCount (t1 ++ t2) = fetchCount t1 + fetchCount t2 := by
  simp [fetchCount, List.filter_append]

lemma create_with_local_no_fetch (w : World) (p d : String) :
    fetchCount (create_with_local_venv w p d).2 = 0 := by
  show fetchCount (local_venv_attempts w d (venv_cmd_options p d)).2 = 0
  generalize venv_cmd_options p d = cs
  induction cs with
  | nil => simp [local_venv_attempts, fetchCount]
  | cons c rest ih =>
    by_cases hc : w.runRes c = RunRes.ok
    · simp [local_venv_attempts, hc, fetchCount, is_fetch_event]
    · simp [local_venv_attempts, hc, fetchCount, is_fetch_event] at ih ⊢
      exact ih

lemma remote_venv_no_fetch (w : World) (p d : String) :
    fetchCount (create_with_remote_venv w p d).2 = 0 := by
  unfold create_with_remote_venv
  cases h : w.downloadFile VIRTUALENV_URL (virtualenv_script_dst d) <;>
    simp [fetchCount, is_fetch_event, h]

lemma create_virtualenv_no_fetch (w : World) (p d : String) :
    fetchCount (create_virtualenv w p d).2 = 0 := by
  unfold create_virtualenv
  have hl := create_with_local_no_fetch w p d
  rcases hE : create_with_local_venv w p d with ⟨r1, tr1⟩
  rw [hE] at hl
  simp only at hl
  cases r1
  · simp [fetchCount_append, hl, remote_venv_no_fetch]
  · simpa using hl

lemma create_virtualenv_over_no_fetch (w : World) (d : String)
    (ps : List String) :
    fetchCount (create_virtualenv_over w d ps).2 = 0 := by
  induction ps with
  | nil => simp [create_virtualenv_over, fetchCount]
  | cons p rest ih =>
    have hv := create_virtualenv_no_fetch w p d
    unfold create_virtualenv_over
    rcases hE : create_virtualenv w p d with ⟨r1, tr1⟩
    rw [hE] at hv
    simp only at hv
    cases r1
    · simp [fetchCount_append, hv, ih]
    · simpa using hv

/-- C9: when the running interpreter is itself a portable distribution and
every discovered candidate fails, `create_core_penv` fails with the
build-failure error without ever invoking the portable-interpreter fetch —
even in worlds where that fetch would have returned an interpreter. -/
theorem penv_C9_portable_skip (w : World) (fs : Fs) (d : String)
    (hport : w.isPortable = true)
    (hall : ∀ p ∈ w.pythons, (create_virtualenv w p d).1 = none) :
    (create_core_penv w fs (some d)).1 = Except.error PIOErr.buildFailure ∧
      fetchCount (create_core_penv w fs (some d)).2.2 = 0 := by
  have h1 : (create_virtualenv_over w d w.pythons).1 = none :=
    create_virtualenv_over_all_fail w d w.pythons hall
  constructor
  · simp [create_core_penv, h1, hport]
  · have h2 : (create_core_penv w fs (some d)).2.2 =
        (create_virtualenv_over w d w.pythons).2 := by
      simp [create_core_penv, h1, hport]
    rw [h2, create_virtualenv_over_no_fetch]

/-- A concrete world like `w2` but whose running interpreter is portable,
while the portable fetch would succeed if it were ever consulted. -/
def w9 : World :=
  ⟨fun _ => RunRes.exitError, fun _ _ => none, fun _ => none, fun _ => false,
   ["py"], true, fun _ => some "portable-python", false, 0, "1.2.2", "Linux",
   "5.15", none, "core"⟩

/-- Witness for C9: in `w9` the build fails fatally and no portable fetch
appears in the trace although the fetch oracle would have yielded an
interpreter. -/
theorem penv_C9_witness :
    (create_core_penv w9 (fun _ => none) (some "base/pdir")).1 =
        Except.error PIOErr.buildFailure ∧
      fetchCount (create_core_penv w9 (fun _ => none) (some "base/pdir")).2.2 = 0 :=
  penv_C9_portable_skip w9 (fun _ => none) "base/pdir" (by decide) (by decide)

/-! ### Claims C4 and C10 -/

lemma update_pip_true_iff (w : World) (p d : String) :
    (update_pip w p d).1 = true ↔
      (w.writeOk (pip_conf_path d) = true ∧
        (w.runRes (pip_upgrade_cmd p) = RunRes.ok ∨
          (w.runRes (pip_upgrade_cmd p) = RunRes.exitError ∧
            w.runRes [p, get_pip_path d] = RunRes.ok))) := by
  unfold update_pip
  cases hw : w.writeOk (pip_conf_path d)
  · simp [hw]
  · cases hr : w.runRes (pip_upgrade_cmd p)
    · simp [hw, hr]
    · cases hr2 : w.runRes [p, get_pip_path d] <;> simp [hw, hr, hr2]
    · simp [hw, hr]

lemma update_pip_download_count (w : World) (p d : String) :
    downloadCount PIP_URL (update_pip w p d).2 =
      (if w.writeOk (pip_conf_path d) = true ∧
          w.runRes (pip_upgrade_cmd p) = RunRes.exitError then 1 else 0) := by
  unfold update_pip
  cases hw : w.writeOk (pip_conf_path d)
  · simp [hw, downloadCount]
  · cases hr : w.runRes (pip_upgrade_cmd p) <;> simp [hw, hr, downloadCount]

/-- C4: `update_pip` is total (it never raises: every failure is turned
into its boolean result) and returns `true` exactly when, after a
successful `pip.conf` write, either the primary upgrade command exits
cleanly or the primary exits with an error status and the downloaded
`get-pip.py` run exits cleanly; it returns `false` precisely when neither
step succeeds, and the fallback download happens only in the
primary-exit-error case — in particular never when the primary
succeeds. -/
theorem penv_C4_update_pip_contract (w : World) (p d : String) :
    ((update_pip w p d).1 = true ↔
      (w.writeOk (pip_conf_path d) = true ∧
        (w.runRes (pip_upgrade_cmd p) = RunRes.ok ∨
          (w.runRes (pip_upgrade_cmd p) = RunRes.exitError ∧
            w.runRes [p, get_pip_path d] = RunRes.ok)))) ∧
      downloadCount PIP_URL (update_pip w p d).2 =
        (if w.writeOk (pip_conf_path d) = true ∧
            w.runRes (pip_upgrade_cmd p) = RunRes.exitError then 1 else 0) :=
  ⟨update_pip_true_iff w p d, update_pip_download_count w p d⟩

/-- C10: the `get-pip.py` fallback runs only when the primary upgrade
command fails with a process-exit error; when the `pip.conf` write fails or
the primary fails for any other reason, `update_pip` returns `false` with
no fallback download in its trace. -/
theorem penv_C10_fallback_only_on_exit_error (w : World) (p d : String)
    (h : w.writeOk (pip_conf_path d) = false ∨
      w.runRes (pip_upgrade_cmd p) = RunRes.otherError) :
    (update_pip w p d).1 = false ∧
      downloadCount PIP_URL (update_pip w p d).2 = 0 := by
  have hne : ¬((update_pip w p d).1 = true) := by
    intro htrue
    rcases (update_pip_true_iff w p d).mp htrue with ⟨h1, hrest⟩
    rcases h with h | h
    · rw [h] at h1
      exact Bool.false_ne_true h1
    · rcases hrest with hok | ⟨hexit, _⟩
      · rw [h] at hok
        exact RunRes.noConfusion hok
      · rw [h] at hexit
        exact RunRes.noConfusion hexit
  have hcond : ¬(w.writeOk (pip_conf_path d) = true ∧
      w.runRes (pip_upgrade_cmd p) = RunRes.exitError) := by
    rintro ⟨h1, h2⟩
    rcases h with h | h
    · rw [h] at h1
      exact Bool.false_ne_true h1
    · rw [h] at h2
      exact RunRes.noConfusion h2
  constructor
  · cases hb : (update_pip w p d).1
    · rfl
    · exact absurd hb hne
  · rw [update_pip_download_count, if_neg hcond]

/-- Witness for C10: in `w2` the `pip.conf` write fails, so `update_pip`
returns `false` without attempting the fallback download. -/
theorem penv_C10_witness :
    (update_pip w2 "py" "base/pdir").1 = false ∧
      downloadCount PIP_URL (update_pip w2 "py" "base/pdir").2 = 0 :=
  penv_C10_fallback_only_on_exit_error w2 "py" "base/pdir" (Or.inl (by decide))

/-! ### Claim C5 -/

/-- Checks along a trace that every process invocation starts with the
target path `d` freshly cleared.  The boolean argument says whether `d` has
been forcibly removed since the last process invocation: a `removeDir d`
sets it, a `runCmd` both requires it (a command must never see files of a
prior attempt at `d`) and resets it, since a failed command may leave a
partial tree behind; downloads and file writes touch the sibling cache
directory, never the target, and leave it unchanged. -/
def runs_after_clear (d : String) : Bool → List Event → Bool
  | _, [] => true
  | cleared, Event.removeDir p :: tr =>
      runs_after_clear d (if p = d then true else cleared) tr
  | cleared, Event.runCmd _ _ :: tr => cleared && runs_after_clear d false tr
  | cleared, _ :: tr => runs_after_clear d cleared tr

/-- The cleared-flag value left after processing a trace. -/
def clear_flag_after (d : String) : Bool → List Event → Bool
  | b, [] => b
  | b, Event.removeDir p :: tr => clear_flag_after d (if p = d then true else b) tr
  | _, Event.runCmd _ _ :: tr => clear_flag_after d false tr
  | b, _ :: tr => clear_flag_after d b tr

lemma runs_after_clear_append (d : String) (t1 t2 : List Event) (b : Bool) :
    runs_after_clear d b (t1 ++ t2) =
      (runs_after_clear d b t1 &&
        runs_after_clear d (clear_flag_after d b t1) t2) := by
  induction t1 generalizing b with
  | nil => simp [runs_after_clear, clear_flag_after]
  | cons e tr ih =>
    cases e <;> simp [runs_after_clear, clear_flag_after, ih, Bool.and_assoc]

lemma local_attempts_runs_after_clear (w : World) (d : String)
    (cs : List (List String)) (b : Bool) :
    runs_after_clear d b (local_venv_attempts w d cs).2 = true := by
  induction cs generalizing b with
  | nil => simp [local_venv_attempts, runs_after_clear]
  | cons c rest ih =>
    by_cases hc : w.runRes c = RunRes.ok
    · simp [local_venv_attempts, hc, runs_after_clear]
    · simp [local_venv_attempts, hc, runs_after_clear, ih]

lemma remote_venv_runs_after_clear (w : World) (p d : String) (b : Bool) :
    runs_after_clear d b (create_with_remote_venv w p d).2 = true := by
  unfold create_with_remote_venv
  cases h : w.downloadFile VIRTUALENV_URL (virtualenv_script_dst d) <;>
    simp [runs_after_clear, h]

/-- C5: in every world, along a candidate's whole construction attempt —
the five local strategy invocations and the remote strategy invocation —
every process invocation starts with the target directory forcibly
cleared after any earlier attempt, so no file of a prior failed attempt at
the same path exists when a strategy's command starts. -/
theorem penv_C5_cleared_before_every_attempt (w : World) (p d : String) :
    runs_after_clear d false (create_virtualenv w p d).2 = true := by
  unfold create_virtualenv
  have hl := local_attempts_runs_after_clear w d (venv_cmd_options p d) false
  rcases hE : create_with_local_venv w p d with ⟨r1, tr1⟩
  have hl1 : runs_after_clear d false tr1 = true := by
    rw [show local_venv_attempts w d (venv_cmd_options p d) =
      create_with_local_venv w p d from rfl, hE] at hl
    exact hl
  cases r1
  · simp [runs_after_clear_append, hl1, remote_venv_runs_after_clear]
  · simpa using hl1

/-! ### Claims C6, C7 and C8 -/

/-- C6: saving a state record and then loading on the same target path
returns the record that was saved: `save_state` writes it to `state.json`
under the target path, overwriting unconditionally, and `load_state`
deserializes that same file. -/
theorem penv_C6_save_load_round_trip (fs : Fs) (s : JVal) (d : String) :
    load_state (save_state fs s d).1 d = Except.ok s := by
  simp [load_state, save_state]

/-- C7: `load_state` fails with the distinct missing-state-file error when
`state.json` is absent under the target path, and otherwise returns the
stored record without failing. -/
theorem penv_C7_load_state_cases (fs : Fs) (d : String) :
    (fs (state_path d) = none →
      load_state fs d = Except.error (PIOErr.stateNotFound (state_path d))) ∧
      (∀ v, fs (state_path d) = some v → load_state fs d = Except.ok v) := by
  constructor
  · intro h
    simp [load_state, h]
  · intro v h
    simp [load_state, h]

/-- The empty filesystem: no path holds a stored record. -/
def fs_empty : Fs := fun _ => none

/-- Witness for C7: loading from an empty filesystem fails with the
missing-state-file error, and loading after storing a record returns it. -/
theorem penv_C7_witness :
    (load_state fs_empty "pdir" =
        Except.error (PIOErr.stateNotFound (state_path "pdir"))) ∧
      load_state (fun q => if q = state_path "pdir" then some (JVal.num 7)
        else none) "pdir" = Except.ok (JVal.num 7) :=
  ⟨(penv_C7_load_state_cases fs_empty "pdir").1 rfl,
   (penv_C7_load_state_cases (fun q => if q = state_path "pdir"
     then some (JVal.num 7) else none) "pdir").2 (JVal.num 7) (by simp)⟩

/-- The top-level keys of a JSON object. -/
def JVal.topKeys : JVal → List String
  | JVal.obj fields => fields.map Prod.fst
  | _ => []

/-- The filesystem after `init_state`, or the initial one when it failed. -/
def init_state_fs (w : World) (fs : Fs) (python_exe penv_dir : String) : Fs :=
  match (init_state w fs python_exe penv_dir).1 with
  | Except.ok r => r.1
  | Except.error _ => fs

/-- The top-level keys of the record stored at `penv_dir`, empty when no
record is stored there. -/
def stored_keys (fs : Fs) (penv_dir : String) : List String :=
  match load_state fs penv_dir with
  | Except.ok v => v.topKeys
  | Except.error _ => []

/-- A concrete world for the state recorder: the interpreter reports
version `3.9.7`, and clock, installer version and platform descriptors are
fixed. -/
def w8 : World :=
  ⟨fun _ => RunRes.ok, fun _ _ => none, fun _ => some "3.9.7", fun _ => true,
   ["py"], false, fun _ => none, false, 1700000000, "1.2.2", "Linux-x86_64",
   "5.15.0", none, "core"⟩

/-- Counterexample to C8 as stated: at a concrete input the record
`init_state` persists has top-level keys `created_on`, `python`,
`installer_version` and `platform` — the runtime entry is keyed `python`,
and no `runtime` key exists. -/
theorem penv_C8_counterexample :
    stored_keys (init_state_fs w8 fs_empty "py" "pdir") "pdir" =
        ["created_on", "python", "installer_version", "platform"] ∧
      ¬ ("runtime" ∈ stored_keys (init_state_fs w8 fs_empty "py" "pdir") "pdir") := by
  exact ⟨rfl, by decide⟩

/-- C8 as amended: when the version query succeeds, `init_state` assembles
and persists under the target path a record with exactly the keys
`created_on` (the current unix timestamp), `python` (`path` and `version`,
the version obtained by executing the freshly built environment's
interpreter with the minimal version-reporting instruction),
`installer_version`, and `platform` (`platform` and `release`). -/
theorem penv_C8_state_record (w : World) (fs : Fs) (p d v : String)
    (h : w.checkOutput [p, "-c", version_code] = some v) :
    (init_state w fs p d).1 =
        Except.ok (init_state_fs w fs p d, state_path d) ∧
      load_state (init_state_fs w fs p d) d = Except.ok (JVal.obj
        [("created_on", JVal.num w.timeNow),
         ("python", JVal.obj
           [("path", JVal.str p), ("version", JVal.str v)]),
         ("installer_version", JVal.str w.installerVersion),
         ("platform", JVal.obj
           [("platform", JVal.str w.platformDesc),
            ("release", JVal.str w.platformRelease)])]) := by
  constructor
  · simp [init_state_fs, init_state, h, save_state]
  · simp [init_state_fs, init_state, h, init_state_record, load_state, save_state,
      state_path]

/-- Witness for C8 amended: in `w8` the persisted record carries the
concrete timestamp, interpreter path and version, installer version and
platform fields. -/
theorem penv_C8_witness :
    (init_state w8 fs_empty "py" "pdir").1 =
        Except.ok (init_state_fs w8 fs_empty "py" "pdir", state_path "pdir") ∧
      load_state (init_state_fs w8 fs_empty "py" "pdir") "pdir" = Except.ok (JVal.obj
        [("created_on", JVal.num 1700000000),
         ("python", JVal.obj
           [("path", JVal.str "py"), ("version", JVal.str "3.9.7")]),
         ("installer_version", JVal.str "1.2.2"),
         ("platform", JVal.obj
           [("platform", JVal.str "Linux-x86_64"),
            ("release", JVal.str "5.15.0")])]) :=
  penv_C8_state_record w8 fs_empty "py" "pdir" "3.9.7" rfl

end PioPenv
